import Mathlib

/-!
Verification of the ERT batch-job submission layer: the LSF driver option
table and submit-method selection, and the job-queue scheduling state machine.

The repository provides the LSF driver test (`job_lsf_test.c`) and the job
template header (`ext_job.h`); the driver and queue implementations
(`lsf_driver.c`, the Queue Manager) are modelled from the specification, with
C pointer-valued option strings rendered as `Option String` (`none` = NULL).
-/

/-- Submit methods of the LSF driver, as in `lsf_submit_method_enum`. -/
inductive lsf_submit_method_enum
  | LSF_SUBMIT_INTERNAL
  | LSF_SUBMIT_LOCAL_SHELL
  | LSF_SUBMIT_REMOTE_SHELL
deriving DecidableEq, Repr

export lsf_submit_method_enum (LSF_SUBMIT_INTERNAL LSF_SUBMIT_LOCAL_SHELL LSF_SUBMIT_REMOTE_SHELL)

/-- Option key for the submit command, as used by `job_lsf_test.c`. -/
def LSF_BSUB_CMD : String := "LSF_BSUB_CMD"

/-- Option key for the status command, as used by `job_lsf_test.c`. -/
def LSF_BJOBS_CMD : String := "LSF_BJOBS_CMD"

/-- Option key for the kill command, as used by `job_lsf_test.c`. -/
def LSF_BKILL_CMD : String := "LSF_BKILL_CMD"

/-- Option key for the remote-shell command, as used by `job_lsf_test.c`. -/
def LSF_RSH_CMD : String := "LSF_RSH_CMD"

/-- Option key for the login shell, as used by `job_lsf_test.c`. -/
def LSF_LOGIN_SHELL : String := "LSF_LOGIN_SHELL"

/-- Option key for the target server, as used by `job_lsf_test.c`. -/
def LSF_SERVER : String := "LSF_SERVER"

/-- Modelled from the spec: option key for the resource-request string
(`lsf_driver.c` is not in the sources). -/
def LSF_RESOURCE : String := "LSF_RESOURCE"

/-- Modelled from the spec: option key for the queue name
(`lsf_driver.c` is not in the sources). -/
def LSF_QUEUE : String := "LSF_QUEUE"

/-- The enumerated set of recognized LSF driver option keys (spec section 4.2). -/
def lsf_recognized_keys : List String :=
  [LSF_BSUB_CMD, LSF_BJOBS_CMD, LSF_BKILL_CMD, LSF_RSH_CMD,
   LSF_LOGIN_SHELL, LSF_SERVER, LSF_RESOURCE, LSF_QUEUE]

/-- Modelled from the spec: the state of `lsf_driver_type` (`lsf_driver.c` is
not in the sources).  An option value is `Option String`; `none` is a C NULL
pointer.  `submit_method` is re-derived whenever the server option changes. -/
structure lsf_driver where
  bsub_cmd : Option String
  bjobs_cmd : Option String
  bkill_cmd : Option String
  rsh_cmd : Option String
  login_shell : Option String
  remote_lsf_server : Option String
  resource_request : Option String
  queue_name : Option String
  submit_method : lsf_submit_method_enum
deriving DecidableEq, Repr

/-- Modelled from the spec: the default value of each recognized option key on
a freshly allocated driver (spec sections 3 and 6; `lsf_driver.c` is not in the
sources).  Unrecognized keys have no value. -/
def lsf_option_default (option : String) : Option String :=
  if option = LSF_BSUB_CMD then some "bsub"
  else if option = LSF_BJOBS_CMD then some "bjobs"
  else if option = LSF_BKILL_CMD then some "bkill"
  else if option = LSF_RSH_CMD then some "ssh"
  else if option = LSF_LOGIN_SHELL then none
  else if option = LSF_SERVER then none
  else if option = LSF_RESOURCE then none
  else if option = LSF_QUEUE then none
  else none

/-- Modelled from the spec: `lsf_driver_alloc` — a fresh driver holding the
default value for every key; the server is unset, so the submit method is
`LSF_SUBMIT_INTERNAL`. -/
def lsf_driver_alloc : lsf_driver :=
  { bsub_cmd := lsf_option_default LSF_BSUB_CMD
    bjobs_cmd := lsf_option_default LSF_BJOBS_CMD
    bkill_cmd := lsf_option_default LSF_BKILL_CMD
    rsh_cmd := lsf_option_default LSF_RSH_CMD
    login_shell := lsf_option_default LSF_LOGIN_SHELL
    remote_lsf_server := lsf_option_default LSF_SERVER
    resource_request := lsf_option_default LSF_RESOURCE
    queue_name := lsf_option_default LSF_QUEUE
    submit_method := LSF_SUBMIT_INTERNAL }

/-- Case-insensitive string equality, as C `strcasecmp(a, b) == 0`: the two
strings agree character-wise after lowercasing. -/
def lsf_strcasecmp_eq (a b : String) : Bool :=
  a.data.map Char.toLower == b.data.map Char.toLower

/-- Modelled from the spec: setting the server re-selects the submit method as
a pure function of the new value (spec section 4.2): empty or unset server
selects `LSF_SUBMIT_INTERNAL`, a server case-insensitively equal to the whole
string "local" selects `LSF_SUBMIT_LOCAL_SHELL`, and any other non-empty
server selects `LSF_SUBMIT_REMOTE_SHELL`. -/
def lsf_driver_set_remote_server (driver : lsf_driver) (server : Option String) : lsf_driver :=
  match server with
  | none => { driver with remote_lsf_server := none, submit_method := LSF_SUBMIT_INTERNAL }
  | some s =>
      if s = "" then
        { driver with remote_lsf_server := some s, submit_method := LSF_SUBMIT_INTERNAL }
      else if lsf_strcasecmp_eq s "local" then
        { driver with remote_lsf_server := some s, submit_method := LSF_SUBMIT_LOCAL_SHELL }
      else
        { driver with remote_lsf_server := some s, submit_method := LSF_SUBMIT_REMOTE_SHELL }

/-- Modelled from the spec: `lsf_driver_set_option` — stores the value under a
recognized key and reports success; an unrecognized key is rejected with no
change to the driver (`lsf_driver.c` is not in the sources).  Returns the
success flag together with the updated driver. -/
def lsf_driver_set_option (driver : lsf_driver) (option : String) (value : Option String) :
    Bool × lsf_driver :=
  if option = LSF_BSUB_CMD then (true, { driver with bsub_cmd := value })
  else if option = LSF_BJOBS_CMD then (true, { driver with bjobs_cmd := value })
  else if option = LSF_BKILL_CMD then (true, { driver with bkill_cmd := value })
  else if option = LSF_RSH_CMD then (true, { driver with rsh_cmd := value })
  else if option = LSF_LOGIN_SHELL then (true, { driver with login_shell := value })
  else if option = LSF_SERVER then (true, lsf_driver_set_remote_server driver value)
  else if option = LSF_RESOURCE then (true, { driver with resource_request := value })
  else if option = LSF_QUEUE then (true, { driver with queue_name := value })
  else (false, driver)

/-- Modelled from the spec: `lsf_driver_get_option` — the current value stored
under a recognized key (`lsf_driver.c` is not in the sources). -/
def lsf_driver_get_option (driver : lsf_driver) (option : String) : Option String :=
  if option = LSF_BSUB_CMD then driver.bsub_cmd
  else if option = LSF_BJOBS_CMD then driver.bjobs_cmd
  else if option = LSF_BKILL_CMD then driver.bkill_cmd
  else if option = LSF_RSH_CMD then driver.rsh_cmd
  else if option = LSF_LOGIN_SHELL then driver.login_shell
  else if option = LSF_SERVER then driver.remote_lsf_server
  else if option = LSF_RESOURCE then driver.resource_request
  else if option = LSF_QUEUE then driver.queue_name
  else none

/-- Modelled from the spec: `lsf_driver_get_submit_method` — the currently
selected submit method. -/
def lsf_driver_get_submit_method (driver : lsf_driver) : lsf_submit_method_enum :=
  driver.submit_method

lemma lsf_set_option_server (d : lsf_driver) (v : Option String) :
    lsf_driver_set_option d LSF_SERVER v = (true, lsf_driver_set_remote_server d v) := by
  simp [lsf_driver_set_option, LSF_SERVER, LSF_BSUB_CMD, LSF_BJOBS_CMD, LSF_BKILL_CMD,
    LSF_RSH_CMD, LSF_LOGIN_SHELL]

lemma lsf_set_remote_server_stores (d : lsf_driver) (v : Option String) :
    (lsf_driver_set_remote_server d v).remote_lsf_server = v := by
  cases v with
  | none => rfl
  | some s =>
      unfold lsf_driver_set_remote_server
      by_cases h1 : s = ""
      · simp [h1]
      · by_cases h2 : lsf_strcasecmp_eq s "local"
        · simp [h1, h2]
        · simp [h1, h2]

/-- C1: the submit method is a pure function of the server option alone,
re-evaluated on every change: an unset (NULL) or empty server selects
`LSF_SUBMIT_INTERNAL`, a server case-insensitively equal to the whole string
"local" selects `LSF_SUBMIT_LOCAL_SHELL`, and any other non-empty server
selects `LSF_SUBMIT_REMOTE_SHELL`, whatever the driver state before the
change. -/
theorem lsf_submit_method_selection (d : lsf_driver) (v : Option String) :
    ((v = none ∨ v = some "") →
      lsf_driver_get_submit_method (lsf_driver_set_option d LSF_SERVER v).2 =
        LSF_SUBMIT_INTERNAL) ∧
    (∀ s, v = some s → s ≠ "" → lsf_strcasecmp_eq s "local" = true →
      lsf_driver_get_submit_method (lsf_driver_set_option d LSF_SERVER v).2 =
        LSF_SUBMIT_LOCAL_SHELL) ∧
    (∀ s, v = some s → s ≠ "" → lsf_strcasecmp_eq s "local" = false →
      lsf_driver_get_submit_method (lsf_driver_set_option d LSF_SERVER v).2 =
        LSF_SUBMIT_REMOTE_SHELL) := by
  refine ⟨?_, ?_, ?_⟩
  · rintro (rfl | rfl) <;>
      simp [lsf_set_option_server, lsf_driver_set_remote_server, lsf_driver_get_submit_method]
  · rintro s rfl hne hcase
    simp [lsf_set_option_server, lsf_driver_set_remote_server, lsf_driver_get_submit_method,
      hne, hcase]
  · rintro s rfl hne hcase
    simp [lsf_set_option_server, lsf_driver_set_remote_server, lsf_driver_get_submit_method,
      hne, hcase]

/-- Witness for C1 at the concrete servers of `job_lsf_test.c`: "LoCaL" gives
the local shell, "be-grid01" the remote shell, NULL the internal method. -/
theorem lsf_submit_method_selection_witness :
    lsf_driver_get_submit_method
      (lsf_driver_set_option lsf_driver_alloc LSF_SERVER (some "LoCaL")).2 =
      LSF_SUBMIT_LOCAL_SHELL ∧
    lsf_driver_get_submit_method
      (lsf_driver_set_option lsf_driver_alloc LSF_SERVER (some "be-grid01")).2 =
      LSF_SUBMIT_REMOTE_SHELL ∧
    lsf_driver_get_submit_method
      (lsf_driver_set_option lsf_driver_alloc LSF_SERVER none).2 =
      LSF_SUBMIT_INTERNAL :=
  ⟨(lsf_submit_method_selection lsf_driver_alloc (some "LoCaL")).2.1 "LoCaL" rfl
      (by decide) (by decide),
   (lsf_submit_method_selection lsf_driver_alloc (some "be-grid01")).2.2 "be-grid01" rfl
      (by decide) (by decide),
   (lsf_submit_method_selection lsf_driver_alloc none).1 (Or.inl rfl)⟩

/-- C2: setting any recognized option key succeeds, and `get_option` on that
key returns exactly the value most recently set, a later set overwriting an
earlier one. -/
theorem lsf_option_roundtrip (d : lsf_driver) (option : String) (v₁ v₂ : Option String)
    (h : option ∈ lsf_recognized_keys) :
    (lsf_driver_set_option d option v₂).1 = true ∧
    lsf_driver_get_option
      (lsf_driver_set_option (lsf_driver_set_option d option v₁).2 option v₂).2 option = v₂ := by
  simp only [lsf_recognized_keys, List.mem_cons, List.not_mem_nil, or_false] at h
  rcases h with rfl | rfl | rfl | rfl | rfl | rfl | rfl | rfl <;>
    exact ⟨by simp [lsf_driver_set_option, LSF_BSUB_CMD, LSF_BJOBS_CMD, LSF_BKILL_CMD,
             LSF_RSH_CMD, LSF_LOGIN_SHELL, LSF_SERVER, LSF_RESOURCE, LSF_QUEUE],
           by simp [lsf_driver_set_option, lsf_driver_get_option, lsf_set_remote_server_stores,
             LSF_BSUB_CMD, LSF_BJOBS_CMD, LSF_BKILL_CMD, LSF_RSH_CMD, LSF_LOGIN_SHELL,
             LSF_SERVER, LSF_RESOURCE, LSF_QUEUE]⟩

/-- Witness for C2: on a fresh driver, setting the submit command to "Xbsub"
and then to "bsub" succeeds and reads back "bsub". -/
theorem lsf_option_roundtrip_witness :
    LSF_BSUB_CMD ∈ lsf_recognized_keys ∧
    ((lsf_driver_set_option lsf_driver_alloc LSF_BSUB_CMD (some "bsub")).1 = true ∧
     lsf_driver_get_option
       (lsf_driver_set_option
         (lsf_driver_set_option lsf_driver_alloc LSF_BSUB_CMD (some "Xbsub")).2
         LSF_BSUB_CMD (some "bsub")).2 LSF_BSUB_CMD = some "bsub") :=
  ⟨by decide,
   lsf_option_roundtrip lsf_driver_alloc LSF_BSUB_CMD (some "Xbsub") (some "bsub") (by decide)⟩

/-- C3: `set_option` on a key outside the enumerated set returns false and
leaves the whole driver state, hence every stored option value, unchanged. -/
theorem lsf_option_unrecognized (d : lsf_driver) (option : String) (v : Option String)
    (h : option ∉ lsf_recognized_keys) :
    (lsf_driver_set_option d option v).1 = false ∧
    (lsf_driver_set_option d option v).2 = d := by
  simp only [lsf_recognized_keys, List.mem_cons, List.not_mem_nil, or_false, not_or] at h
  obtain ⟨h1, h2, h3, h4, h5, h6, h7, h8⟩ := h
  simp [lsf_driver_set_option, h1, h2, h3, h4, h5, h6, h7, h8]

/-- Witness for C3: the key "LSF_NO_SUCH_OPTION" is rejected on a fresh driver
and the driver is left exactly as allocated. -/
theorem lsf_option_unrecognized_witness :
    "LSF_NO_SUCH_OPTION" ∉ lsf_recognized_keys ∧
    ((lsf_driver_set_option lsf_driver_alloc "LSF_NO_SUCH_OPTION" (some "x")).1 = false ∧
     (lsf_driver_set_option lsf_driver_alloc "LSF_NO_SUCH_OPTION" (some "x")).2 =
       lsf_driver_alloc) :=
  ⟨by decide,
   lsf_option_unrecognized lsf_driver_alloc "LSF_NO_SUCH_OPTION" (some "x") (by decide)⟩

/-- C9: every recognized key has a well-defined default, and `get_option` on a
freshly allocated driver where the key was never set returns that default. -/
theorem lsf_option_fresh_default (option : String) (h : option ∈ lsf_recognized_keys) :
    lsf_driver_get_option lsf_driver_alloc option = lsf_option_default option := by
  simp only [lsf_recognized_keys, List.mem_cons, List.not_mem_nil, or_false] at h
  rcases h with rfl | rfl | rfl | rfl | rfl | rfl | rfl | rfl <;> rfl

/-- Witness for C9: the submit-command key on a fresh driver reads back its
default value "bsub". -/
theorem lsf_option_fresh_default_witness :
    LSF_BSUB_CMD ∈ lsf_recognized_keys ∧
    lsf_driver_get_option lsf_driver_alloc LSF_BSUB_CMD = lsf_option_default LSF_BSUB_CMD ∧
    lsf_option_default LSF_BSUB_CMD = some "bsub" :=
  ⟨by decide, lsf_option_fresh_default LSF_BSUB_CMD (by decide), by decide⟩

/-- C10: a NULL server value is accepted by `set_option` and treated as unset:
the submit method becomes `LSF_SUBMIT_INTERNAL`, and setting the server to
NULL after any earlier value restores `LSF_SUBMIT_INTERNAL`. -/
theorem lsf_server_null_internal (d : lsf_driver) (v : Option String) :
    (lsf_driver_set_option d LSF_SERVER none).1 = true ∧
    lsf_driver_get_submit_method (lsf_driver_set_option d LSF_SERVER none).2 =
      LSF_SUBMIT_INTERNAL ∧
    lsf_driver_get_submit_method
      (lsf_driver_set_option (lsf_driver_set_option d LSF_SERVER v).2 LSF_SERVER none).2 =
      LSF_SUBMIT_INTERNAL := by
  refine ⟨?_, ?_, ?_⟩ <;>
    simp [lsf_set_option_server, lsf_driver_set_remote_server, lsf_driver_get_submit_method]

/-! ## The Queue Manager and the job lifecycle state machine -/

/-- Lifecycle states of a Job Instance (spec section 4.3): initial `WAITING`,
terminals `SUCCESS`, `FAILED`, `CANCELLED`; `SUBMITTED`, `PENDING`, `RUNNING`
are the active states. -/
inductive job_status_enum
  | WAITING
  | SUBMITTED
  | PENDING
  | RUNNING
  | SUCCESS
  | FAILED
  | CANCELLED
deriving DecidableEq, Repr

/-- Driver poll results (spec section 4.1):
`{PENDING, RUNNING, DONE, EXIT(code), UNKNOWN}`. -/
inductive poll_status_enum
  | POLL_PENDING
  | POLL_RUNNING
  | POLL_DONE
  | POLL_EXIT (code : Nat)
  | POLL_UNKNOWN
deriving DecidableEq, Repr

/-- The Job Template `ext_job_type` of `ext_job.h`, restricted to the two
limits the scheduling claims consult. -/
structure ext_job where
  max_running : Nat
  max_running_minutes : Nat
deriving DecidableEq, Repr

/-- `ext_job_get_max_running` from `ext_job.h`: concurrent-instance limit of
the template, 0 meaning unlimited. -/
def ext_job_get_max_running (job : ext_job) : Nat :=
  job.max_running

/-- `ext_job_get_max_running_minutes` from `ext_job.h`: wall-clock limit of
one instance measured while `RUNNING`, 0 meaning no limit. -/
def ext_job_get_max_running_minutes (job : ext_job) : Nat :=
  job.max_running_minutes

/-- Modelled from the spec: the Queue Manager policy knobs (the queue
implementation is not in the sources) — the maximum resubmission count and the
UNKNOWN-poll grace threshold (spec sections 4.3 and 9). -/
structure queue_config where
  max_retries : Nat
  unknown_grace : Nat
deriving DecidableEq, Repr

/-- Modelled from the spec: a Job Instance record of the Queue Manager (spec
section 3; the queue implementation is not in the sources): lifecycle state,
resubmission attempts so far, consecutive UNKNOWN polls, the time the instance
entered `RUNNING`, the pending cancel request, the number of kill commands
issued for it, and the last failure reason. -/
structure job_instance where
  job_status : job_status_enum
  submit_attempt : Nat
  unknown_count : Nat
  run_start : Nat
  cancel_requested : Bool
  kill_count : Nat
  fail_reason : Option String
deriving DecidableEq, Repr

/-- The active states `{SUBMITTED, PENDING, RUNNING}` of spec section 4.3. -/
def active_status (s : job_status_enum) : Bool :=
  match s with
  | .SUBMITTED => true
  | .PENDING => true
  | .RUNNING => true
  | _ => false

/-- Modelled from the spec: the retry policy (spec section 4.3) — a failure
transition re-enters `WAITING` and increments the attempt counter while the
resubmission budget is not exhausted, and moves to `FAILED` with the last
failure reason otherwise. -/
def retry_or_fail (cfg : queue_config) (reason : String) (job : job_instance) : job_instance :=
  if job.submit_attempt < cfg.max_retries then
    { job with job_status := .WAITING, submit_attempt := job.submit_attempt + 1,
               unknown_count := 0 }
  else
    { job with job_status := .FAILED, fail_reason := some reason, unknown_count := 0 }

/-- Modelled from the spec: one state-machine transition for a single Job
Instance within a polling cycle (spec sections 4.3 and 5; the queue
implementation is not in the sources).  A pending cancel request wins over
everything: an active instance is killed and moved to `CANCELLED`, a waiting
one is moved to `CANCELLED` without a kill.  Otherwise `SUBMITTED` follows the
submit outcome, `PENDING`/`RUNNING` follow the poll result with the
UNKNOWN-grace counter, a `RUNNING` instance past `max_running_minutes`
(measured from `run_start`) is killed and retried or failed, and terminal
states and `WAITING` are left untouched. -/
def job_update (cfg : queue_config) (tmpl : ext_job) (now : Nat) (pr : poll_status_enum)
    (submit_ok : Bool) (job : job_instance) : job_instance :=
  if job.cancel_requested && active_status job.job_status then
    { job with job_status := .CANCELLED, kill_count := job.kill_count + 1 }
  else if job.cancel_requested && (job.job_status == .WAITING) then
    { job with job_status := .CANCELLED }
  else
    match job.job_status with
    | .SUBMITTED =>
        if submit_ok then
          { job with job_status := .PENDING, unknown_count := 0 }
        else
          retry_or_fail cfg "submit failed" job
    | .PENDING =>
        match pr with
        | .POLL_PENDING => { job with unknown_count := 0 }
        | .POLL_RUNNING =>
            { job with job_status := .RUNNING, run_start := now, unknown_count := 0 }
        | .POLL_DONE => { job with job_status := .SUCCESS, unknown_count := 0 }
        | .POLL_EXIT code =>
            if code = 0 then { job with job_status := .SUCCESS, unknown_count := 0 }
            else retry_or_fail cfg "abnormal exit" job
        | .POLL_UNKNOWN =>
            if cfg.unknown_grace < job.unknown_count + 1 then
              retry_or_fail cfg "status unknown" job
            else
              { job with unknown_count := job.unknown_count + 1 }
    | .RUNNING =>
        if ext_job_get_max_running_minutes tmpl ≠ 0 ∧
            ext_job_get_max_running_minutes tmpl < now - job.run_start then
          retry_or_fail cfg "max_running_minutes exceeded"
            { job with kill_count := job.kill_count + 1 }
        else
          match pr with
          | .POLL_PENDING => { job with unknown_count := 0 }
          | .POLL_RUNNING => { job with unknown_count := 0 }
          | .POLL_DONE => { job with job_status := .SUCCESS, unknown_count := 0 }
          | .POLL_EXIT code =>
              if code = 0 then { job with job_status := .SUCCESS, unknown_count := 0 }
              else retry_or_fail cfg "abnormal exit" job
          | .POLL_UNKNOWN =>
              if cfg.unknown_grace < job.unknown_count + 1 then
                retry_or_fail cfg "status unknown" job
              else
                { job with unknown_count := job.unknown_count + 1 }
    | _ => job

/-- The backend's observable behaviour during one polling cycle: the current
time and, per instance position, the poll result and the submit outcome. -/
structure cycle_input where
  now : Nat
  poll : Nat → poll_status_enum
  submit_ok : Nat → Bool

/-- Modelled from the spec: phase (a)+(b) of a polling cycle (spec section 5)
— every instance takes its state-machine transition from its own backend
observation. -/
def poll_pass (cfg : queue_config) (tmpl : ext_job) (inp : cycle_input) :
    Nat → List job_instance → List job_instance
  | _, [] => []
  | i, job :: rest =>
      job_update cfg tmpl inp.now (inp.poll i) (inp.submit_ok i) job ::
        poll_pass cfg tmpl inp (i + 1) rest

/-- The number of instances currently in an active state. -/
def count_active (jobs : List job_instance) : Nat :=
  jobs.countP (fun job => active_status job.job_status)

/-- Modelled from the spec: phase (c) of a polling cycle — dispatch `WAITING`
instances in first-submitted-first-dispatched order, each only while the
running count (initially the number of already-active instances) is below the
template's `max_running`, with 0 meaning no bound; an instance with a pending
cancel request is never dispatched. -/
def dispatch_pass (tmpl : ext_job) : Nat → List job_instance → List job_instance
  | _, [] => []
  | count, job :: rest =>
      if job.job_status = .WAITING ∧ job.cancel_requested = false ∧
          (ext_job_get_max_running tmpl = 0 ∨ count < ext_job_get_max_running tmpl) then
        { job with job_status := .SUBMITTED } :: dispatch_pass tmpl (count + 1) rest
      else
        job :: dispatch_pass tmpl count rest

/-- Modelled from the spec: one full polling/dispatch cycle of the Queue
Manager (spec section 5): poll and transition every instance, then dispatch
eligible `WAITING` instances under the concurrency limit. -/
def queue_cycle (cfg : queue_config) (tmpl : ext_job) (inp : cycle_input)
    (jobs : List job_instance) : List job_instance :=
  dispatch_pass tmpl (count_active (poll_pass cfg tmpl inp 0 jobs))
    (poll_pass cfg tmpl inp 0 jobs)

/-- A simulated run: the polling/dispatch cycle applied for each input in
turn. -/
def queue_run (cfg : queue_config) (tmpl : ext_job) (inputs : List cycle_input)
    (jobs : List job_instance) : List job_instance :=
  inputs.foldl (fun acc inp => queue_cycle cfg tmpl inp acc) jobs

/-- Modelled from the spec: a newly enqueued Job Instance — `WAITING`, no
attempts, no backend history (spec sections 2 and 7). -/
def fresh_instance : job_instance :=
  { job_status := .WAITING, submit_attempt := 0, unknown_count := 0, run_start := 0,
    cancel_requested := false, kill_count := 0, fail_reason := none }

/-- Modelled from the spec: `enqueue` — appends a fresh `WAITING` instance and
returns its id, the position in the instance table. -/
def enqueue (jobs : List job_instance) : Nat × List job_instance :=
  (jobs.length, jobs ++ [fresh_instance])

/-- Modelled from the spec: `get_status` — a total lookup that never blocks
and never fails: it returns the last known lifecycle state of the instance,
together with the failure reason when that state is `FAILED`. -/
def get_status (jobs : List job_instance) (id : Nat) : job_status_enum × Option String :=
  match jobs.get? id with
  | some job => (job.job_status, if job.job_status = .FAILED then job.fail_reason else none)
  | none => (.WAITING, none)

/-- Modelled from the spec: `cancel` — marks the instance's cancel request,
which the next cycle merges into the state machine (spec section 5). -/
def cancel_request : List job_instance → Nat → List job_instance
  | [], _ => []
  | job :: rest, 0 => { job with cancel_requested := true } :: rest
  | job :: rest, n + 1 => job :: cancel_request rest n

/-! ## Structural lemmas about one transition -/

lemma job_update_cancel_preserved (cfg : queue_config) (tmpl : ext_job) (now : Nat)
    (pr : poll_status_enum) (sb : Bool) (job : job_instance) :
    (job_update cfg tmpl now pr sb job).cancel_requested = job.cancel_requested := by
  unfold job_update retry_or_fail
  repeat' split
  all_goals rfl

lemma job_update_inactive (cfg : queue_config) (tmpl : ext_job) (now : Nat)
    (pr : poll_status_enum) (sb : Bool) (job : job_instance)
    (h : active_status job.job_status = false) :
    active_status (job_update cfg tmpl now pr sb job).job_status = false := by
  cases hc : job.cancel_requested <;> cases hs : job.job_status <;>
    simp_all [job_update, active_status]

lemma job_update_waiting_uncancelled (cfg : queue_config) (tmpl : ext_job) (now : Nat)
    (pr : poll_status_enum) (sb : Bool) (job : job_instance)
    (h : (job_update cfg tmpl now pr sb job).job_status = .WAITING) :
    (job_update cfg tmpl now pr sb job).cancel_requested = false := by
  rw [job_update_cancel_preserved]
  cases hc : job.cancel_requested
  · rfl
  · exfalso
    cases hs : job.job_status <;> simp_all [job_update, active_status]

lemma poll_pass_count_le (cfg : queue_config) (tmpl : ext_job) (inp : cycle_input) :
    ∀ (l : List job_instance) (i : Nat),
      count_active (poll_pass cfg tmpl inp i l) ≤ count_active l := by
  intro l
  induction l with
  | nil => intro i; simp [poll_pass]
  | cons job rest IH =>
      intro i
      have h1 := IH (i + 1)
      have h2 : (if active_status
            (job_update cfg tmpl inp.now (inp.poll i) (inp.submit_ok i) job).job_status
            then 1 else 0) ≤ (if active_status job.job_status then 1 else 0) := by
        by_cases hj : active_status job.job_status = true
        · simp only [hj, if_true]
          split <;> omega
        · have hj' : active_status job.job_status = false := by
            revert hj; cases active_status job.job_status <;> simp
          rw [job_update_inactive cfg tmpl inp.now (inp.poll i) (inp.submit_ok i) job hj']
          simp
      simp only [poll_pass, count_active, List.countP_cons] at h1 ⊢
      omega

lemma job_update_waiting_fix (cfg : queue_config) (tmpl : ext_job) (now : Nat)
    (pr : poll_status_enum) (sb : Bool) (job : job_instance)
    (hc : job.cancel_requested = false)
    (hs : job.job_status = .WAITING ∨ job.job_status = .FAILED) :
    job_update cfg tmpl now pr sb job = job := by
  rcases hs with hs | hs <;> simp [job_update, hc, hs, active_status]

lemma poll_pass_waiting_uncancelled (cfg : queue_config) (tmpl : ext_job) (inp : cycle_input) :
    ∀ (l : List job_instance) (i : Nat), ∀ j ∈ poll_pass cfg tmpl inp i l,
      j.job_status = .WAITING → j.cancel_requested = false := by
  intro l
  induction l with
  | nil => intro i j hj; simp [poll_pass] at hj
  | cons job rest IH =>
      intro i j hj hW
      simp only [poll_pass, List.mem_cons] at hj
      rcases hj with rfl | hj
      · exact job_update_waiting_uncancelled cfg tmpl inp.now (inp.poll i) (inp.submit_ok i)
          job hW
      · exact IH (i + 1) j hj hW

lemma dispatch_pass_count (tmpl : ext_job) (hN : 0 < ext_job_get_max_running tmpl) :
    ∀ (l : List job_instance) (c : Nat), c ≤ ext_job_get_max_running tmpl →
      count_active (dispatch_pass tmpl c l) + c ≤
        count_active l + ext_job_get_max_running tmpl := by
  intro l
  induction l with
  | nil => intro c hc; simpa [dispatch_pass, count_active] using hc
  | cons job rest IH =>
      intro c hc
      unfold dispatch_pass
      split
      case isTrue h =>
        obtain ⟨hW, _, hb⟩ := h
        have hlt : c < ext_job_get_max_running tmpl := by omega
        have h1 := IH (c + 1) (by omega)
        simp only [count_active, List.countP_cons] at h1 ⊢
        simp only [hW, active_status] at h1 ⊢
        simp at h1 ⊢
        omega
      case isFalse h =>
        have h1 := IH c hc
        simp only [count_active, List.countP_cons] at h1 ⊢
        omega

lemma dispatch_pass_unbounded (tmpl : ext_job) (h0 : ext_job_get_max_running tmpl = 0) :
    ∀ (l : List job_instance) (c : Nat),
      (∀ j ∈ l, j.job_status = .WAITING → j.cancel_requested = false) →
      ∀ j ∈ dispatch_pass tmpl c l, j.job_status ≠ .WAITING := by
  intro l
  induction l with
  | nil => intro c _ j hj; simp [dispatch_pass] at hj
  | cons job rest IH =>
      intro c hl j hj
      unfold dispatch_pass at hj
      split at hj
      case isTrue h =>
        simp only [List.mem_cons] at hj
        rcases hj with rfl | hj
        · simp
        · exact IH (c + 1) (fun x hx => hl x (List.mem_cons_of_mem _ hx)) j hj
      case isFalse h =>
        simp only [List.mem_cons] at hj
        rcases hj with rfl | hj
        · intro hW
          exact h ⟨hW, hl j (by simp) hW, Or.inl h0⟩
        · exact IH c (fun x hx => hl x (List.mem_cons_of_mem _ hx)) j hj

lemma queue_cycle_count_bound (cfg : queue_config) (tmpl : ext_job) (inp : cycle_input)
    (jobs : List job_instance) (hN : 0 < ext_job_get_max_running tmpl)
    (hq : count_active jobs ≤ ext_job_get_max_running tmpl) :
    count_active (queue_cycle cfg tmpl inp jobs) ≤ ext_job_get_max_running tmpl := by
  unfold queue_cycle
  have h1 := poll_pass_count_le cfg tmpl inp jobs 0
  have h2 := dispatch_pass_count tmpl hN (poll_pass cfg tmpl inp 0 jobs)
    (count_active (poll_pass cfg tmpl inp 0 jobs)) (le_trans h1 hq)
  omega

/-- C4: with `max_running = N > 0`, every state of a simulated run reachable
from a state within the bound keeps at most N instances of the template
simultaneously in `{SUBMITTED, PENDING, RUNNING}` (`submit` is only called for
a `WAITING` instance while the count is below N); with `max_running = 0` no
bound is applied: after any cycle no dispatchable instance is left
`WAITING`. -/
theorem queue_max_running_bound (cfg : queue_config) (tmpl : ext_job)
    (inputs : List cycle_input) (jobs : List job_instance) :
    (0 < ext_job_get_max_running tmpl →
      count_active jobs ≤ ext_job_get_max_running tmpl →
      count_active (queue_run cfg tmpl inputs jobs) ≤ ext_job_get_max_running tmpl) ∧
    (ext_job_get_max_running tmpl = 0 →
      ∀ (inp : cycle_input) (l : List job_instance),
        ∀ j ∈ queue_cycle cfg tmpl inp l, j.job_status ≠ .WAITING) := by
  constructor
  · intro hN
    induction inputs generalizing jobs with
    | nil => intro hq; simpa [queue_run] using hq
    | cons inp rest IH =>
        intro hq
        have h1 := queue_cycle_count_bound cfg tmpl inp jobs hN hq
        simpa [queue_run] using IH (queue_cycle cfg tmpl inp jobs) h1
  · intro h0 inp l j hj
    exact dispatch_pass_unbounded tmpl h0 (poll_pass cfg tmpl inp 0 l)
      (count_active (poll_pass cfg tmpl inp 0 l))
      (poll_pass_waiting_uncancelled cfg tmpl inp l 0) j hj

lemma job_update_cancelled_step (cfg : queue_config) (tmpl : ext_job) (now : Nat)
    (pr : poll_status_enum) (sb : Bool) (job : job_instance)
    (h1 : job.cancel_requested = true) (h2 : job.job_status ≠ .SUCCESS) :
    (job_update cfg tmpl now pr sb job).cancel_requested = true ∧
    (job_update cfg tmpl now pr sb job).job_status ≠ .SUCCESS := by
  refine ⟨by rw [job_update_cancel_preserved]; exact h1, ?_⟩
  cases hs : job.job_status <;> simp_all [job_update, active_status]

lemma poll_pass_get (cfg : queue_config) (tmpl : ext_job) (inp : cycle_input) :
    ∀ (l : List job_instance) (i k : Nat) (j : job_instance), l.get? k = some j →
      (poll_pass cfg tmpl inp i l).get? k =
        some (job_update cfg tmpl inp.now (inp.poll (i + k)) (inp.submit_ok (i + k)) j) := by
  intro l
  induction l with
  | nil => intro i k j hk; simp at hk
  | cons a rest IH =>
      intro i k j hk
      cases k with
      | zero =>
          simp only [List.get?] at hk
          cases hk
          simp [poll_pass]
      | succ m =>
          have hk' : rest.get? m = some j := by simpa using hk
          have h := IH (i + 1) m j hk'
          simp only [poll_pass, List.get?]
          rw [show i + (m + 1) = i + 1 + m by omega]
          exact h

lemma dispatch_pass_get (tmpl : ext_job) :
    ∀ (l : List job_instance) (c k : Nat) (j : job_instance), l.get? k = some j →
      ∃ j', (dispatch_pass tmpl c l).get? k = some j' ∧
        (j' = j ∨ (j.job_status = .WAITING ∧ j.cancel_requested = false ∧
          j' = { j with job_status := .SUBMITTED })) := by
  intro l
  induction l with
  | nil => intro c k j hk; simp at hk
  | cons a rest IH =>
      intro c k j hk
      unfold dispatch_pass
      split
      case isTrue h =>
        cases k with
        | zero =>
            simp only [List.get?] at hk
            injection hk with haj
            subst haj
            exact ⟨{ a with job_status := .SUBMITTED }, rfl, Or.inr ⟨h.1, h.2.1, rfl⟩⟩
        | succ m =>
            have hk' : rest.get? m = some j := by simpa using hk
            simpa using IH (c + 1) m j hk'
      case isFalse h =>
        cases k with
        | zero =>
            simp only [List.get?] at hk
            injection hk with haj
            subst haj
            exact ⟨a, rfl, Or.inl rfl⟩
        | succ m =>
            have hk' : rest.get? m = some j := by simpa using hk
            simpa using IH c m j hk'

lemma queue_cycle_cancelled (cfg : queue_config) (tmpl : ext_job) (inp : cycle_input)
    (jobs : List job_instance) (k : Nat) (j : job_instance) (hk : jobs.get? k = some j)
    (h1 : j.cancel_requested = true) (h2 : j.job_status ≠ .SUCCESS) :
    ∃ j', (queue_cycle cfg tmpl inp jobs).get? k = some j' ∧
      j'.cancel_requested = true ∧ j'.job_status ≠ .SUCCESS := by
  have hp := poll_pass_get cfg tmpl inp jobs 0 k j hk
  have hstep := job_update_cancelled_step cfg tmpl inp.now (inp.poll (0 + k))
    (inp.submit_ok (0 + k)) j h1 h2
  obtain ⟨j', hd, hrel⟩ := dispatch_pass_get tmpl (poll_pass cfg tmpl inp 0 jobs)
    (count_active (poll_pass cfg tmpl inp 0 jobs)) k _ hp
  refine ⟨j', by simpa [queue_cycle] using hd, ?_⟩
  rcases hrel with rfl | ⟨_, hcf, _⟩
  · exact hstep
  · rw [hstep.1] at hcf
    cases hcf

/-- C5: once a cancel request is recorded for a not-yet-successful instance,
every later state of the simulated run keeps the request and the instance
never reaches `SUCCESS`; in particular an active instance with a pending
cancel whose backend concurrently reports success (`POLL_DONE`) resolves to
`CANCELLED` with a kill issued. -/
theorem cancel_never_success (cfg : queue_config) (tmpl : ext_job)
    (inputs : List cycle_input) (jobs : List job_instance) (k now : Nat) (sb : Bool)
    (j : job_instance) (hk : jobs.get? k = some j)
    (h1 : j.cancel_requested = true) (h2 : j.job_status ≠ .SUCCESS) :
    (∃ j', (queue_run cfg tmpl inputs jobs).get? k = some j' ∧
      j'.cancel_requested = true ∧ j'.job_status ≠ .SUCCESS) ∧
    (active_status j.job_status = true →
      (job_update cfg tmpl now .POLL_DONE sb j).job_status = .CANCELLED ∧
      (job_update cfg tmpl now .POLL_DONE sb j).kill_count = j.kill_count + 1) := by
  constructor
  · induction inputs generalizing jobs j with
    | nil => exact ⟨j, by simpa [queue_run] using hk, h1, h2⟩
    | cons inp rest IH =>
        obtain ⟨j', hj', hc', hs'⟩ := queue_cycle_cancelled cfg tmpl inp jobs k j hk h1 h2
        simpa [queue_run] using IH (queue_cycle cfg tmpl inp jobs) j' hj' hc' hs'
  · intro hact
    simp [job_update, h1, hact]

/-- Witness for C5: a `RUNNING` instance with a pending cancel request, whose
backend reports `POLL_DONE` on the next cycle, ends the run `CANCELLED` (not
`SUCCESS`) with one kill issued. -/
theorem cancel_never_success_witness :
    (⟨.RUNNING, 0, 0, 0, true, 0, none⟩ : job_instance).cancel_requested = true ∧
    (⟨.RUNNING, 0, 0, 0, true, 0, none⟩ : job_instance).job_status ≠ .SUCCESS ∧
    (∃ j', (queue_run ⟨1, 1⟩ ⟨0, 0⟩ [⟨0, fun _ => .POLL_DONE, fun _ => true⟩]
        [⟨.RUNNING, 0, 0, 0, true, 0, none⟩]).get? 0 = some j' ∧
      j'.cancel_requested = true ∧ j'.job_status ≠ .SUCCESS) ∧
    (job_update ⟨1, 1⟩ ⟨0, 0⟩ 0 .POLL_DONE true
        ⟨.RUNNING, 0, 0, 0, true, 0, none⟩).job_status = .CANCELLED :=
  ⟨rfl, by decide,
   (cancel_never_success ⟨1, 1⟩ ⟨0, 0⟩ [⟨0, fun _ => .POLL_DONE, fun _ => true⟩]
      [⟨.RUNNING, 0, 0, 0, true, 0, none⟩] 0 0 true
      ⟨.RUNNING, 0, 0, 0, true, 0, none⟩ rfl rfl (by decide)).1,
   ((cancel_never_success ⟨1, 1⟩ ⟨0, 0⟩ [⟨0, fun _ => .POLL_DONE, fun _ => true⟩]
      [⟨.RUNNING, 0, 0, 0, true, 0, none⟩] 0 0 true
      ⟨.RUNNING, 0, 0, 0, true, 0, none⟩ rfl rfl (by decide)).2 (by decide)).1⟩

/-- C6: the wall-clock timeout is measured from the moment the instance
enters `RUNNING` — the `PENDING` to `RUNNING` transition stamps `run_start`
with the current time — and a `RUNNING` instance whose elapsed time since
`run_start` exceeds a nonzero `max_running_minutes` is killed and takes the
abnormal-exit transition: back to `WAITING` with the attempt counter bumped
while the retry budget lasts, to `FAILED` otherwise. -/
theorem running_timeout_kill (cfg : queue_config) (tmpl : ext_job) (now : Nat)
    (pr : poll_status_enum) (sb : Bool) (job : job_instance)
    (hc : job.cancel_requested = false) :
    (job.job_status = .PENDING →
      (job_update cfg tmpl now .POLL_RUNNING sb job).job_status = .RUNNING ∧
      (job_update cfg tmpl now .POLL_RUNNING sb job).run_start = now) ∧
    (job.job_status = .RUNNING →
      ext_job_get_max_running_minutes tmpl ≠ 0 →
      ext_job_get_max_running_minutes tmpl < now - job.run_start →
      (job_update cfg tmpl now pr sb job).kill_count = job.kill_count + 1 ∧
      (job.submit_attempt < cfg.max_retries →
        (job_update cfg tmpl now pr sb job).job_status = .WAITING ∧
        (job_update cfg tmpl now pr sb job).submit_attempt = job.submit_attempt + 1) ∧
      (¬ job.submit_attempt < cfg.max_retries →
        (job_update cfg tmpl now pr sb job).job_status = .FAILED)) := by
  constructor
  · intro hs
    simp [job_update, hc, hs, active_status]
  · intro hs hmz hover
    have hcond : ext_job_get_max_running_minutes tmpl ≠ 0 ∧
        ext_job_get_max_running_minutes tmpl < now - job.run_start := ⟨hmz, hover⟩
    refine ⟨?_, ?_, ?_⟩
    · simp [job_update, hc, hs, active_status, hcond, retry_or_fail]
      split <;> rfl
    · intro hr
      simp [job_update, hc, hs, active_status, hcond, retry_or_fail, hr]
    · intro hr
      simp [job_update, hc, hs, active_status, hcond, retry_or_fail, hr]

/-- Witness for C6: with `max_running_minutes = 1`, an instance that entered
`RUNNING` at time 0 and is polled at time 5 with one retry left is killed and
re-enters `WAITING` with the attempt counter at 1. -/
theorem running_timeout_kill_witness :
    (⟨.RUNNING, 0, 0, 0, false, 0, none⟩ : job_instance).cancel_requested = false ∧
    (job_update ⟨1, 1⟩ ⟨0, 1⟩ 5 .POLL_RUNNING true
        ⟨.RUNNING, 0, 0, 0, false, 0, none⟩).kill_count = 0 + 1 ∧
    (job_update ⟨1, 1⟩ ⟨0, 1⟩ 5 .POLL_RUNNING true
        ⟨.RUNNING, 0, 0, 0, false, 0, none⟩).job_status = .WAITING ∧
    (job_update ⟨1, 1⟩ ⟨0, 1⟩ 5 .POLL_RUNNING true
        ⟨.RUNNING, 0, 0, 0, false, 0, none⟩).submit_attempt = 0 + 1 :=
  ⟨rfl,
   ((running_timeout_kill ⟨1, 1⟩ ⟨0, 1⟩ 5 .POLL_RUNNING true
      ⟨.RUNNING, 0, 0, 0, false, 0, none⟩ rfl).2 rfl (by decide) (by decide)).1,
   (((running_timeout_kill ⟨1, 1⟩ ⟨0, 1⟩ 5 .POLL_RUNNING true
      ⟨.RUNNING, 0, 0, 0, false, 0, none⟩ rfl).2 rfl (by decide) (by decide)).2.1
      (by decide)).1,
   (((running_timeout_kill ⟨1, 1⟩ ⟨0, 1⟩ 5 .POLL_RUNNING true
      ⟨.RUNNING, 0, 0, 0, false, 0, none⟩ rfl).2 rfl (by decide) (by decide)).2.1
      (by decide)).2⟩

lemma unknown_step_cases (cfg : queue_config) (tmpl : ext_job) (now : Nat) (sb : Bool)
    (job : job_instance) (hc : job.cancel_requested = false)
    (hs : job.job_status = .PENDING ∨ job.job_status = .RUNNING) :
    ((job_update cfg tmpl now .POLL_UNKNOWN sb job).job_status = job.job_status ∧
     (job_update cfg tmpl now .POLL_UNKNOWN sb job).unknown_count = job.unknown_count + 1) ∨
    ((job_update cfg tmpl now .POLL_UNKNOWN sb job).job_status = .WAITING ∨
     (job_update cfg tmpl now .POLL_UNKNOWN sb job).job_status = .FAILED) := by
  rcases hs with hs | hs
  · simp only [job_update, hc, hs, active_status, Bool.false_and, Bool.and_self]
    simp only [Bool.false_eq_true, if_false]
    split
    · right
      unfold retry_or_fail
      split <;> simp
    · left
      simp [hs]
  · simp only [job_update, hc, hs, active_status, Bool.false_and, Bool.and_self]
    simp only [Bool.false_eq_true, if_false]
    split
    · right
      unfold retry_or_fail
      split <;> simp
    · split
      · right
        unfold retry_or_fail
        split <;> simp
      · left
        simp [hs]

lemma unknown_iterate_exit (cfg : queue_config) (tmpl : ext_job) (now : Nat) (sb : Bool) :
    ∀ (k : Nat) (job : job_instance), job.cancel_requested = false →
      (job.job_status = .PENDING ∨ job.job_status = .RUNNING) →
      cfg.unknown_grace < job.unknown_count + (k + 1) →
      (((fun j => job_update cfg tmpl now .POLL_UNKNOWN sb j)^[k + 1] job).job_status =
          .WAITING ∨
       ((fun j => job_update cfg tmpl now .POLL_UNKNOWN sb j)^[k + 1] job).job_status =
          .FAILED) := by
  intro k
  induction k with
  | zero =>
      intro job hc hs hgr
      have hgt : cfg.unknown_grace < job.unknown_count + 1 := by omega
      simp only [Nat.zero_add, Function.iterate_one]
      by_cases hr : job.submit_attempt < cfg.max_retries
      · left
        rcases hs with hs | hs
        · simp [job_update, hc, hs, active_status, hgt, retry_or_fail, hr]
        · by_cases ht : ext_job_get_max_running_minutes tmpl ≠ 0 ∧
              ext_job_get_max_running_minutes tmpl < now - job.run_start
          · simp [job_update, hc, hs, active_status, ht, retry_or_fail, hr]
          · simp [job_update, hc, hs, active_status, ht, hgt, retry_or_fail, hr]
      · right
        rcases hs with hs | hs
        · simp [job_update, hc, hs, active_status, hgt, retry_or_fail, hr]
        · by_cases ht : ext_job_get_max_running_minutes tmpl ≠ 0 ∧
              ext_job_get_max_running_minutes tmpl < now - job.run_start
          · simp [job_update, hc, hs, active_status, ht, retry_or_fail, hr]
          · simp [job_update, hc, hs, active_status, ht, hgt, retry_or_fail, hr]
  | succ k IH =>
      intro job hc hs hgr
      rw [Function.iterate_succ_apply]
      rcases unknown_step_cases cfg tmpl now sb job hc hs with ⟨hst, huc⟩ | hout
      · have hc' : (job_update cfg tmpl now .POLL_UNKNOWN sb job).cancel_requested = false := by
          rw [job_update_cancel_preserved]; exact hc
        have hs' : (job_update cfg tmpl now .POLL_UNKNOWN sb job).job_status = .PENDING ∨
            (job_update cfg tmpl now .POLL_UNKNOWN sb job).job_status = .RUNNING := by
          rw [hst]; exact hs
        exact IH (job_update cfg tmpl now .POLL_UNKNOWN sb job) hc' hs' (by omega)
      · have hc' : (job_update cfg tmpl now .POLL_UNKNOWN sb job).cancel_requested = false := by
          rw [job_update_cancel_preserved]; exact hc
        have hfix := job_update_waiting_fix cfg tmpl now .POLL_UNKNOWN sb
          (job_update cfg tmpl now .POLL_UNKNOWN sb job) hc' hout
        rw [Function.iterate_fixed hfix]
        exact hout

/-- C7: a transient `UNKNOWN` poll within the grace threshold is absorbed —
the instance keeps its state and only the consecutive-UNKNOWN counter grows —
while persistent `UNKNOWN` polls drive any `PENDING`/`RUNNING` instance to
`WAITING` (retry) or `FAILED` within `unknown_grace + 1` cycles, so no
instance stays active indefinitely. -/
theorem unknown_grace_progress (cfg : queue_config) (tmpl : ext_job) (now : Nat) (sb : Bool)
    (job : job_instance) (hc : job.cancel_requested = false) :
    ((job.job_status = .PENDING ∨ job.job_status = .RUNNING) →
      job.unknown_count + 1 ≤ cfg.unknown_grace →
      ¬ (job.job_status = .RUNNING ∧ ext_job_get_max_running_minutes tmpl ≠ 0 ∧
          ext_job_get_max_running_minutes tmpl < now - job.run_start) →
      (job_update cfg tmpl now .POLL_UNKNOWN sb job).job_status = job.job_status ∧
      (job_update cfg tmpl now .POLL_UNKNOWN sb job).unknown_count =
        job.unknown_count + 1) ∧
    ((job.job_status = .PENDING ∨ job.job_status = .RUNNING) →
      (((fun j => job_update cfg tmpl now .POLL_UNKNOWN sb j)^[cfg.unknown_grace + 1]
          job).job_status = .WAITING ∨
       ((fun j => job_update cfg tmpl now .POLL_UNKNOWN sb j)^[cfg.unknown_grace + 1]
          job).job_status = .FAILED)) := by
  constructor
  · intro hs hgr hnt
    rcases hs with hs | hs
    · have : ¬ cfg.unknown_grace < job.unknown_count + 1 := by omega
      simp [job_update, hc, hs, active_status, this]
    · have hcond : ¬ (ext_job_get_max_running_minutes tmpl ≠ 0 ∧
          ext_job_get_max_running_minutes tmpl < now - job.run_start) := by
        intro hx; exact hnt ⟨hs, hx.1, hx.2⟩
      have : ¬ cfg.unknown_grace < job.unknown_count + 1 := by omega
      simp [job_update, hc, hs, active_status, hcond, this]
  · intro hs
    exact unknown_iterate_exit cfg tmpl now sb cfg.unknown_grace job hc hs (by omega)

/-- Witness for C7: with a grace threshold of 2, a `PENDING` instance polled
`UNKNOWN` three times in a row leaves the active states (here: back to
`WAITING` for a retry), and the first `UNKNOWN` is absorbed. -/
theorem unknown_grace_progress_witness :
    (⟨.PENDING, 0, 0, 0, false, 0, none⟩ : job_instance).cancel_requested = false ∧
    ((job_update ⟨1, 2⟩ ⟨0, 0⟩ 0 .POLL_UNKNOWN true
        ⟨.PENDING, 0, 0, 0, false, 0, none⟩).job_status = .PENDING ∧
     (job_update ⟨1, 2⟩ ⟨0, 0⟩ 0 .POLL_UNKNOWN true
        ⟨.PENDING, 0, 0, 0, false, 0, none⟩).unknown_count = 0 + 1) ∧
    (((fun j => job_update ⟨1, 2⟩ ⟨0, 0⟩ 0 .POLL_UNKNOWN true j)^[3]
        ⟨.PENDING, 0, 0, 0, false, 0, none⟩).job_status = .WAITING ∨
     ((fun j => job_update ⟨1, 2⟩ ⟨0, 0⟩ 0 .POLL_UNKNOWN true j)^[3]
        ⟨.PENDING, 0, 0, 0, false, 0, none⟩).job_status = .FAILED) :=
  ⟨rfl,
   (unknown_grace_progress ⟨1, 2⟩ ⟨0, 0⟩ 0 true
      ⟨.PENDING, 0, 0, 0, false, 0, none⟩ rfl).1 (Or.inl rfl) (by decide) (by decide),
   (unknown_grace_progress ⟨1, 2⟩ ⟨0, 0⟩ 0 true
      ⟨.PENDING, 0, 0, 0, false, 0, none⟩ rfl).2 (Or.inl rfl)⟩

lemma get_concat_self : ∀ (l : List job_instance) (x : job_instance),
    (l ++ [x]).get? l.length = some x
  | [], _ => rfl
  | _ :: rest, x => get_concat_self rest x

/-- C8: `get_status` is a total function — it returns the last known
lifecycle state of the instance, with the failure reason exactly when that
state is `FAILED`, and an instance that has been enqueued but not yet
dispatched reads back as `WAITING`. -/
theorem get_status_total (jobs : List job_instance) (id : Nat) (job : job_instance)
    (h : jobs.get? id = some job) :
    get_status jobs id =
      (job.job_status, if job.job_status = .FAILED then job.fail_reason else none) ∧
    (∀ l : List job_instance, get_status (enqueue l).2 (enqueue l).1 = (.WAITING, none)) := by
  constructor
  · unfold get_status
    rw [h]
  · intro l
    show get_status (l ++ [fresh_instance]) l.length = (.WAITING, none)
    unfold get_status
    rw [get_concat_self]
    rfl

/-- Witness for C8: on a queue holding one failed instance, `get_status 0`
returns `FAILED` with its reason, and a freshly enqueued instance reads back
`WAITING`. -/
theorem get_status_total_witness :
    ([⟨.FAILED, 2, 0, 0, false, 1, some "abnormal exit"⟩] :
        List job_instance).get? 0 = some ⟨.FAILED, 2, 0, 0, false, 1, some "abnormal exit"⟩ ∧
    get_status [⟨.FAILED, 2, 0, 0, false, 1, some "abnormal exit"⟩] 0 =
      (.FAILED, some "abnormal exit") ∧
    get_status (enqueue []).2 (enqueue []).1 = (.WAITING, none) :=
  ⟨rfl,
   by
    have h := (get_status_total [⟨.FAILED, 2, 0, 0, false, 1, some "abnormal exit"⟩] 0
      ⟨.FAILED, 2, 0, 0, false, 1, some "abnormal exit"⟩ rfl).1
    simpa using h,
   (get_status_total [⟨.FAILED, 2, 0, 0, false, 1, some "abnormal exit"⟩] 0
      ⟨.FAILED, 2, 0, 0, false, 1, some "abnormal exit"⟩ rfl).2 []⟩

/-- Witness for C4: a template with `max_running = 1` and three enqueued
instances keeps at most one active instance across two cycles of a simulated
run. -/
theorem queue_max_running_bound_witness :
    0 < ext_job_get_max_running ⟨1, 0⟩ ∧
    count_active (List.replicate 3 fresh_instance) ≤ ext_job_get_max_running ⟨1, 0⟩ ∧
    count_active (queue_run ⟨1, 1⟩ ⟨1, 0⟩
      [⟨0, fun _ => .POLL_RUNNING, fun _ => true⟩, ⟨1, fun _ => .POLL_RUNNING, fun _ => true⟩]
      (List.replicate 3 fresh_instance)) ≤ ext_job_get_max_running ⟨1, 0⟩ :=
  ⟨by decide, by decide,
   (queue_max_running_bound ⟨1, 1⟩ ⟨1, 0⟩
      [⟨0, fun _ => .POLL_RUNNING, fun _ => true⟩, ⟨1, fun _ => .POLL_RUNNING, fun _ => true⟩]
      (List.replicate 3 fresh_instance)).1 (by decide) (by decide)⟩
